import Mathlib

/-!
Shallow embedding of the Gator live wallet-stalker subsystem
(`stalker_service.py` and the stalker parts of `backend_api.py`).

Python dictionaries are modelled as association lists keyed by `String`,
Python sets of strings as lists of their elements in insertion order
(membership is what the code observes; `set.pop()` removes an *arbitrary*
element, modelled below by an index parameter selecting which element is
removed, so that every possible behaviour of `set.pop()` corresponds to
some index).  Timestamps (`datetime.utcnow()`) are natural numbers passed
in explicitly.  The WebSocket transport is modelled by outcome parameters:
a subscribe/unsubscribe request either succeeds with a provider reply,
yields an error reply, or raises a transport exception.  The `websocket`
handle and the `connected` flag are set together by `connect()`, so they
are folded into the single `connected` field.
-/

set_option maxRecDepth 8000

namespace Gator

/-- Python `str.lower()` on the ASCII strings this service handles,
written over the character list so that it is kernel-computable. -/
def lower (s : String) : String := ⟨s.data.map Char.toLower⟩

/-- Association-list lookup, modelling Python dict access `d.get(k)`. -/
def alookup {α : Type} (k : String) : List (String × α) → Option α
  | [] => none
  | p :: rest => if p.1 = k then some p.2 else alookup k rest

/-- Association-list update, modelling Python dict assignment `d[k] = v`. -/
def aset {α : Type} (k : String) (v : α) (l : List (String × α)) : List (String × α) :=
  l.filter (fun p => p.1 != k) ++ [(k, v)]

/-- Association-list removal, modelling Python `d.pop(k, None)`. -/
def aerase {α : Type} (k : String) (l : List (String × α)) : List (String × α) :=
  l.filter (fun p => p.1 != k)

theorem alookup_filter_ne {α : Type} (k w : String) (h : k ≠ w) :
    ∀ l : List (String × α), alookup k (l.filter (fun p => p.1 != w)) = alookup k l
  | [] => rfl
  | p :: rest => by
    by_cases hw : p.1 = w
    · have hk : ¬ p.1 = k := by rw [hw]; exact fun hh => h hh.symm
      simp [List.filter_cons, hw, alookup, hk, Ne.symm h, alookup_filter_ne k w h rest]
    · by_cases hk : p.1 = k
      · simp [List.filter_cons, hw, alookup, hk, h, Ne.symm h]
      · simp [List.filter_cons, hw, alookup, hk, alookup_filter_ne k w h rest]

theorem alookup_filter_self {α : Type} (k : String) :
    ∀ l : List (String × α), alookup k (l.filter (fun p => p.1 != k)) = none
  | [] => rfl
  | p :: rest => by
    by_cases hk : p.1 = k
    · simp [List.filter_cons, hk, alookup_filter_self k rest]
    · simp [List.filter_cons, hk, alookup, alookup_filter_self k rest]

theorem alookup_append {α : Type} (k : String) :
    ∀ l₁ l₂ : List (String × α),
      alookup k (l₁ ++ l₂) =
        match alookup k l₁ with
        | some v => some v
        | none => alookup k l₂
  | [], _ => rfl
  | p :: rest, l₂ => by
    by_cases hk : p.1 = k
    · simp [alookup, hk]
    · simp [alookup, hk, alookup_append k rest l₂]

theorem alookup_aerase_self {α : Type} (k : String) (l : List (String × α)) :
    alookup k (aerase k l) = none :=
  alookup_filter_self k l

theorem alookup_aerase_ne {α : Type} (k w : String) (h : k ≠ w) (l : List (String × α)) :
    alookup k (aerase w l) = alookup k l :=
  alookup_filter_ne k w h l

theorem alookup_aset_self {α : Type} (k : String) (v : α) (l : List (String × α)) :
    alookup k (aset k v l) = some v := by
  simp [aset, alookup_append, alookup_filter_self, alookup]

theorem alookup_aset_ne {α : Type} (k w : String) (v : α) (h : k ≠ w) (l : List (String × α)) :
    alookup k (aset w v l) = alookup k l := by
  rw [aset, alookup_append, alookup_filter_ne k w h]
  cases hl : alookup k l <;> simp [alookup, Ne.symm h]

theorem mem_filter_ne_self (w : String) (l : List String) :
    w ∉ l.filter (fun x => x != w) := by
  simp [List.mem_filter]

theorem mem_filter_ne_iff (k w : String) (h : k ≠ w) (l : List String) :
    k ∈ l.filter (fun x => x != w) ↔ k ∈ l := by
  simp [List.mem_filter, h]

/-- Outcome of the provider interaction for one subscribe or unsubscribe
request on the shared WebSocket: an acknowledgment carrying a result
(the subscription id), an error reply (no `"result"` field), or a
transport exception raised during `send`/`recv`. -/
inductive SubOutcome where
  | ok (sub_id : String)
  | errorReply
  | transportExn
deriving Repr, DecidableEq

/-- Python-level result of a `watch_wallet` call: `raised` models the
`RuntimeError("WebSocket not connected...")`, the others model the
returned values `None`, `True`, `False`. -/
inductive WatchRet where
  | raised
  | retNone
  | retTrue
  | retFalse
deriving Repr, DecidableEq

/-- The activity event dict built by `_handle_wallet_activity` and passed
to the registered callback. -/
structure ActivityEvent where
  wallet : String
  tx_hash : String
  block_number : Option String
  timestamp : Nat
  chain : String
deriving Repr, DecidableEq

/-- State of an EVM `WalletStalker` instance (`stalker_service.py`). -/
structure EvmState where
  chain : String
  watched_wallets : List String
  subscription_ids : List (String × String)
  last_seen_txs : List (String × List String)
  last_activity : List (String × Nat)
  has_callback : Bool
  connected : Bool
deriving Repr, DecidableEq

/-- State of the `SolanaWalletStalker` instance (`stalker_service.py`).
`subscription_ids` is declared by the class but never written by
`watch_wallet` (the Solana client does not return a subscription id). -/
structure SolState where
  watched_wallets : List String
  subscription_ids : List (String × Nat)
  last_seen_txs : List (String × List String)
  last_activity : List (String × Nat)
  has_callback : Bool
  connected : Bool
deriving Repr, DecidableEq

/-- The debounce-and-record step shared verbatim by both
`_handle_wallet_activity` methods: skip if the identifier was already
seen; otherwise add it and, once the set holds more than 100 members,
remove one element via `set.pop()` — an *arbitrary* member, chosen here
by the index `i` (taken modulo the length, so every index is a possible
behaviour of `set.pop()`).  Returns the new recent-event collection and
whether the event proceeds to dispatch. -/
def debounceStep (seen : List String) (t : String) (i : Nat) : List String × Bool :=
  if t ∈ seen then (seen, false)
  else
    let s1 := seen ++ [t]
    (if s1.length > 100 then s1.eraseIdx (i % s1.length) else s1, true)

namespace WalletStalker

/-- Model of `WalletStalker.watch_wallet`: requires a live connection, lowercases
the address, no-ops (returning `None`) if already watched, otherwise
sends an `eth_subscribe` request; on an acknowledgment with a `"result"`
it records the subscription id, adds the wallet and stamps
`last_activity`, returning `True`; on an error reply or an exception it
returns `False` without touching state. -/
def watch_wallet (s : EvmState) (addr : String) (out : SubOutcome) (now : Nat) :
    WatchRet × EvmState :=
  if !s.connected then (.raised, s)
  else
    let w := lower addr
    if w ∈ s.watched_wallets then (.retNone, s)
    else
      match out with
      | .ok sub_id =>
        (.retTrue,
          { s with
            subscription_ids := aset w sub_id s.subscription_ids
            watched_wallets := s.watched_wallets ++ [w]
            last_activity := aset w now s.last_activity })
      | .errorReply => (.retFalse, s)
      | .transportExn => (.retFalse, s)

/-- Model of `WalletStalker.unwatch_wallet`: lowercases the address, no-ops if not
watched, otherwise sends a best-effort `eth_unsubscribe` (its outcome
`uo` is ignored: exceptions are caught and logged) and unconditionally
removes the wallet from `watched_wallets`, `subscription_ids` and
`last_seen_txs`.  There is no connection check and no raise path. -/
def unwatch_wallet (s : EvmState) (addr : String) (uo : SubOutcome) : EvmState :=
  let w := lower addr
  if w ∈ s.watched_wallets then
    match uo with
    | _ =>
      { s with
        watched_wallets := s.watched_wallets.filter (fun x => x != w)
        subscription_ids := aerase w s.subscription_ids
        last_seen_txs := aerase w s.last_seen_txs }
  else s

/-- Model of `WalletStalker._handle_wallet_activity`: debounce on the wallet's
recent-event set (the `defaultdict` access materialises the entry), then
stamp `last_activity` and, if a callback is registered, deliver exactly
one activity event (callback exceptions are swallowed). -/
def handle_wallet_activity (s : EvmState) (wallet tx_hash : String)
    (block_number : Option String) (now : Nat) (i : Nat) :
    EvmState × List ActivityEvent :=
  let seen := (alookup wallet s.last_seen_txs).getD []
  let step := debounceStep seen tx_hash i
  if step.2 then
    ({ s with
        last_seen_txs := aset wallet step.1 s.last_seen_txs
        last_activity := aset wallet now s.last_activity },
      if s.has_callback then
        [{ wallet := wallet, tx_hash := tx_hash, block_number := block_number,
           timestamp := now, chain := s.chain }]
      else [])
  else
    ({ s with last_seen_txs := aset wallet step.1 s.last_seen_txs }, [])

end WalletStalker

namespace SolanaWalletStalker

/-- Model of `SolanaWalletStalker.watch_wallet`: requires a live connection;
returns `True` immediately if already watched; otherwise attempts
`logs_subscribe` with a mentions filter — on success it adds the wallet
and stamps `last_activity` (no subscription id is recorded), returning
`True`; any exception yields `False` with state untouched. -/
def watch_wallet (s : SolState) (addr : String) (out : SubOutcome) (now : Nat) :
    WatchRet × SolState :=
  if !s.connected then (.raised, s)
  else if addr ∈ s.watched_wallets then (.retTrue, s)
  else
    match out with
    | .ok _ =>
      (.retTrue,
        { s with
          watched_wallets := s.watched_wallets ++ [addr]
          last_activity := aset addr now s.last_activity })
    | _ => (.retFalse, s)

/-- Model of `SolanaWalletStalker.unwatch_wallet`: no-ops if not watched; sends no
wire unsubscribe at all and removes the wallet from `watched_wallets`,
`subscription_ids` and `last_seen_txs`.  No connection check, no raise. -/
def unwatch_wallet (s : SolState) (addr : String) : SolState :=
  if addr ∈ s.watched_wallets then
    { s with
      watched_wallets := s.watched_wallets.filter (fun x => x != addr)
      subscription_ids := aerase addr s.subscription_ids
      last_seen_txs := aerase addr s.last_seen_txs }
  else s

/-- Model of `SolanaWalletStalker._handle_wallet_activity`: same debounce-and-
dispatch step as the EVM variant; the event carries chain `"solana"` and
no block number. -/
def handle_wallet_activity (s : SolState) (wallet signature : String)
    (now : Nat) (i : Nat) : SolState × List ActivityEvent :=
  let seen := (alookup wallet s.last_seen_txs).getD []
  let step := debounceStep seen signature i
  if step.2 then
    ({ s with
        last_seen_txs := aset wallet step.1 s.last_seen_txs
        last_activity := aset wallet now s.last_activity },
      if s.has_callback then
        [{ wallet := wallet, tx_hash := signature, block_number := none,
           timestamp := now, chain := "solana" }]
      else [])
  else
    ({ s with last_seen_txs := aset wallet step.1 s.last_seen_txs }, [])

/-- Model of `SolanaWalletStalker._process_message`: on a `logsNotification`
carrying a signature, iterate over *all* watched wallets and trigger
`_handle_wallet_activity` for each of them (the source comments: "For
now, alert on any activity for watched wallets").  Any other message is
ignored. -/
def process_message (s : SolState) (method : String) (signature : Option String)
    (now : Nat) (i : Nat) : SolState × List ActivityEvent :=
  if method = "logsNotification" then
    match signature with
    | none => (s, [])
    | some sig =>
      s.watched_wallets.foldl
        (fun acc w =>
          let r := handle_wallet_activity acc.1 w sig now i
          (r.1, acc.2 ++ r.2))
        (s, [])
  else (s, [])

end SolanaWalletStalker

/-- One row of the dict returned by `get_watched_wallets_status`. -/
structure WalletStatus where
  state : String
  last_activity : String
  tx_count : Nat
deriving Repr, DecidableEq

/-- The per-wallet status derivation shared by both
`get_watched_wallets_status` methods: `"active"` with a seconds string
under 30s, `"idle"` with minutes under an hour, `"idle"` with hours
beyond, `"idle"`/`"Never"` without any recorded activity; `tx_count` is
the size of the recent-event set. -/
def statusEntry (now : Nat) (la : Option Nat) (seen : List String) : WalletStatus :=
  match la with
  | some t =>
    let d := now - t
    if d < 30 then { state := "active", last_activity := toString d ++ "s ago", tx_count := seen.length }
    else if d < 3600 then { state := "idle", last_activity := toString (d / 60) ++ "m ago", tx_count := seen.length }
    else { state := "idle", last_activity := toString (d / 3600) ++ "h ago", tx_count := seen.length }
  | none => { state := "idle", last_activity := "Never", tx_count := seen.length }

/-- Model of `SolanaWalletStalker.get_watched_wallets_status`. -/
def get_watched_wallets_status (s : SolState) (now : Nat) : List (String × WalletStatus) :=
  s.watched_wallets.map (fun w =>
    (w, statusEntry now (alookup w s.last_activity) ((alookup w s.last_seen_txs).getD [])))

/-- Reply frame chosen by the Gateway's `watch` branch
(`backend_api.py`, `stalker_websocket`). -/
inductive GatewayReply where
  | watch_started
  | error_frame
deriving Repr, DecidableEq

/-- The Gateway's `watch` branch: a raised exception is caught and turned
into an error frame; otherwise `if success:` tests Python truthiness of
the returned value, so only `True` yields `watch_started` — `None` and
`False` yield an error frame. -/
def gateway_watch_reply (r : WatchRet) : GatewayReply :=
  match r with
  | .retTrue => .watch_started
  | _ => .error_frame

/-- One registered stalker client connection; `send_ok` records whether
`send_text` succeeds or raises for this channel during a broadcast. -/
structure ClientChannel where
  cid : Nat
  send_ok : Bool
deriving Repr, DecidableEq

/-- Model of `on_wallet_activity` (`backend_api.py`): iterate over the registered
set attempting delivery, collecting the channels whose send raised into
`disconnected`, then prune them with `difference_update` after the pass.
All exceptions are caught, so the function is total. -/
def on_wallet_activity (channels : List ClientChannel) : List ClientChannel :=
  let disconnected := channels.filter (fun c => !c.send_ok)
  channels.filter (fun c => !(disconnected.contains c))

/-- A fresh `WalletStalker(chain)`. -/
def initEvm (chain : String) : EvmState :=
  { chain := chain, watched_wallets := [], subscription_ids := [],
    last_seen_txs := [], last_activity := [], has_callback := false,
    connected := false }

/-- A fresh `SolanaWalletStalker()`. -/
def initSol : SolState :=
  { watched_wallets := [], subscription_ids := [], last_seen_txs := [],
    last_activity := [], has_callback := false, connected := false }

/-- The module-level singleton tables `_stalker_instances` and
`_solana_stalker`. -/
structure Directory where
  stalker_instances : List (String × EvmState)
  solana_stalker : Option SolState
deriving Repr, DecidableEq

/-- What `get_stalker` evaluates to: the returned adapter instance, or
the connection exception propagating to the caller. -/
inductive GetStalkerResult where
  | evm (s : EvmState)
  | sol (s : SolState)
  | connectRaised
deriving Repr, DecidableEq

/-- Model of `get_stalker(chain)` with the outcome of any `connect()` attempt
supplied as `connect_ok`.  The third component records whether
`connect()` was invoked.  For `chain.lower() == "solana"` the singleton
is assigned *before* `connect()`, so a failed connect leaves a
never-connected instance cached; for EVM chains the instance is stored
in the table only *after* `connect()` returns, so a failed connect
leaves the table unchanged. -/
def get_stalker (d : Directory) (chain : String) (connect_ok : Bool) :
    GetStalkerResult × Directory × Bool :=
  if lower chain = "solana" then
    match d.solana_stalker with
    | none =>
      let s0 := initSol
      if connect_ok then
        let s1 := { s0 with connected := true }
        (.sol s1, { d with solana_stalker := some s1 }, true)
      else
        (.connectRaised, { d with solana_stalker := some s0 }, true)
    | some s => (.sol s, d, false)
  else
    match alookup chain d.stalker_instances with
    | none =>
      if connect_ok then
        let s1 := { initEvm chain with connected := true }
        (.evm s1, { d with stalker_instances := aset chain s1 d.stalker_instances }, true)
      else
        (.connectRaised, d, true)
    | some s => (.evm s, d, false)

/-! ### General helper lemmas -/

theorem alookup_eq_none_of_not_mem_keys {α : Type} (k : String) (ws : List String)
    (l : List (String × α)) (hall : ∀ p ∈ l, p.1 ∈ ws) (hk : k ∉ ws) :
    alookup k l = none := by
  induction l with
  | nil => rfl
  | cons p rest ih =>
    have hp : p.1 ∈ ws := hall p (by simp)
    have hne : ¬ p.1 = k := fun hh => hk (hh ▸ hp)
    simp [alookup, hne, ih (fun q hq => hall q (by simp [hq]))]

theorem alookup_map_key {α : Type} (k : String) (f : String → α) :
    ∀ ws : List String,
      alookup k (ws.map (fun w => (w, f w))) = if k ∈ ws then some (f k) else none
  | [] => rfl
  | w :: ws => by
    by_cases hw : w = k
    · subst hw; simp [alookup]
    · simp [alookup, hw, alookup_map_key k f ws, Ne.symm hw]

theorem debounceStep_mem (seen : List String) (t : String) (i : Nat) (h : t ∈ seen) :
    debounceStep seen t i = (seen, false) := by
  simp [debounceStep, h]

theorem debounceStep_fresh_small (seen : List String) (t : String) (i : Nat)
    (h : t ∉ seen) (hlen : seen.length ≤ 99) :
    debounceStep seen t i = (seen ++ [t], true) := by
  have hgt : ¬ (seen ++ [t]).length > 100 := by
    simp only [List.length_append, List.length_singleton]
    omega
  simp only [debounceStep]
  rw [if_neg h, if_neg hgt]

theorem debounceStep_fires (seen : List String) (t : String) (i : Nat) (h : t ∉ seen) :
    (debounceStep seen t i).2 = true := by
  simp [debounceStep, h]

/-! ### Per-claim development -/

/-- Effect of `WalletStalker.unwatch_wallet` when the target wallet is
either watched (so state is cleaned) or entirely absent already. -/
theorem evm_unwatch_clears (s : EvmState) (w : String) (uo : SubOutcome)
    (h : lower w ∈ s.watched_wallets ∨
      (lower w ∉ s.watched_wallets ∧ alookup (lower w) s.subscription_ids = none ∧
        alookup (lower w) s.last_seen_txs = none)) :
    lower w ∉ (WalletStalker.unwatch_wallet s w uo).watched_wallets ∧
    alookup (lower w) (WalletStalker.unwatch_wallet s w uo).subscription_ids = none ∧
    alookup (lower w) (WalletStalker.unwatch_wallet s w uo).last_seen_txs = none := by
  simp only [WalletStalker.unwatch_wallet]
  rcases h with hmem | ⟨hnot, h1, h2⟩
  · rw [if_pos hmem]
    exact ⟨mem_filter_ne_self _ _, alookup_aerase_self _ _, alookup_aerase_self _ _⟩
  · rw [if_neg hnot]
    exact ⟨hnot, h1, h2⟩

/-- After `WalletStalker.watch_wallet` on a registry whose auxiliary maps
only hold keys for watched wallets, the target wallet is watched or
still entirely absent. -/
theorem evm_watch_post (s : EvmState) (w : String) (wo : SubOutcome) (now : Nat)
    (hsub : ∀ p ∈ s.subscription_ids, p.1 ∈ s.watched_wallets)
    (hseen : ∀ p ∈ s.last_seen_txs, p.1 ∈ s.watched_wallets) :
    lower w ∈ (WalletStalker.watch_wallet s w wo now).2.watched_wallets ∨
      (lower w ∉ (WalletStalker.watch_wallet s w wo now).2.watched_wallets ∧
        alookup (lower w) (WalletStalker.watch_wallet s w wo now).2.subscription_ids = none ∧
        alookup (lower w) (WalletStalker.watch_wallet s w wo now).2.last_seen_txs = none) := by
  unfold WalletStalker.watch_wallet
  by_cases hc : s.connected
  · by_cases hmem : lower w ∈ s.watched_wallets
    · simp [hc, hmem]
    · cases wo with
      | ok sub_id => simp [hc, hmem]
      | errorReply =>
        exact Or.inr ⟨by simp [hc, hmem],
          by simpa [hc, hmem] using
            alookup_eq_none_of_not_mem_keys _ _ _ hsub hmem,
          by simpa [hc, hmem] using
            alookup_eq_none_of_not_mem_keys _ _ _ hseen hmem⟩
      | transportExn =>
        exact Or.inr ⟨by simp [hc, hmem],
          by simpa [hc, hmem] using
            alookup_eq_none_of_not_mem_keys _ _ _ hsub hmem,
          by simpa [hc, hmem] using
            alookup_eq_none_of_not_mem_keys _ _ _ hseen hmem⟩
  · by_cases hmem : lower w ∈ s.watched_wallets
    · simp [hc, hmem]
    · exact Or.inr ⟨by simpa [hc] using hmem,
        by simpa [hc] using alookup_eq_none_of_not_mem_keys _ _ _ hsub hmem,
        by simpa [hc] using alookup_eq_none_of_not_mem_keys _ _ _ hseen hmem⟩

/-- Solana counterpart of `evm_unwatch_clears`. -/
theorem sol_unwatch_clears (t : SolState) (v : String)
    (h : v ∈ t.watched_wallets ∨
      (v ∉ t.watched_wallets ∧ alookup v t.subscription_ids = none ∧
        alookup v t.last_seen_txs = none)) :
    v ∉ (SolanaWalletStalker.unwatch_wallet t v).watched_wallets ∧
    alookup v (SolanaWalletStalker.unwatch_wallet t v).subscription_ids = none ∧
    alookup v (SolanaWalletStalker.unwatch_wallet t v).last_seen_txs = none := by
  simp only [SolanaWalletStalker.unwatch_wallet]
  rcases h with hmem | ⟨hnot, h1, h2⟩
  · rw [if_pos hmem]
    exact ⟨mem_filter_ne_self _ _, alookup_aerase_self _ _, alookup_aerase_self _ _⟩
  · rw [if_neg hnot]
    exact ⟨hnot, h1, h2⟩

/-- Solana counterpart of `evm_watch_post`. -/
theorem sol_watch_post (t : SolState) (v : String) (wo : SubOutcome) (now : Nat)
    (hsub : ∀ p ∈ t.subscription_ids, p.1 ∈ t.watched_wallets)
    (hseen : ∀ p ∈ t.last_seen_txs, p.1 ∈ t.watched_wallets) :
    v ∈ (SolanaWalletStalker.watch_wallet t v wo now).2.watched_wallets ∨
      (v ∉ (SolanaWalletStalker.watch_wallet t v wo now).2.watched_wallets ∧
        alookup v (SolanaWalletStalker.watch_wallet t v wo now).2.subscription_ids = none ∧
        alookup v (SolanaWalletStalker.watch_wallet t v wo now).2.last_seen_txs = none) := by
  unfold SolanaWalletStalker.watch_wallet
  by_cases hc : t.connected
  · by_cases hmem : v ∈ t.watched_wallets
    · simp [hc, hmem]
    · cases wo with
      | ok sub_id => simp [hc, hmem]
      | errorReply =>
        exact Or.inr ⟨by simp [hc, hmem],
          by simpa [hc, hmem] using
            alookup_eq_none_of_not_mem_keys _ _ _ hsub hmem,
          by simpa [hc, hmem] using
            alookup_eq_none_of_not_mem_keys _ _ _ hseen hmem⟩
      | transportExn =>
        exact Or.inr ⟨by simp [hc, hmem],
          by simpa [hc, hmem] using
            alookup_eq_none_of_not_mem_keys _ _ _ hsub hmem,
          by simpa [hc, hmem] using
            alookup_eq_none_of_not_mem_keys _ _ _ hseen hmem⟩
  · by_cases hmem : v ∈ t.watched_wallets
    · simp [hc, hmem]
    · exact Or.inr ⟨by simpa [hc] using hmem,
        by simpa [hc] using alookup_eq_none_of_not_mem_keys _ _ _ hsub hmem,
        by simpa [hc] using alookup_eq_none_of_not_mem_keys _ _ _ hseen hmem⟩

/-- C1: for every wallet `w`, every subscribe outcome and every
unsubscribe outcome (success, error reply, or transport exception),
`watch_wallet w` followed by `unwatch_wallet w` leaves `w` absent from
`watched_wallets`, `subscription_ids` and `last_seen_txs`, on both the
EVM and the Solana adapter; the hypotheses state the registry invariant
that the auxiliary maps only hold keys of watched wallets. -/
theorem c1_watch_unwatch_absent
    (s : EvmState) (w : String) (wo uo : SubOutcome) (now : Nat)
    (hsub : ∀ p ∈ s.subscription_ids, p.1 ∈ s.watched_wallets)
    (hseen : ∀ p ∈ s.last_seen_txs, p.1 ∈ s.watched_wallets)
    (t : SolState) (v : String) (wo2 : SubOutcome) (now2 : Nat)
    (hsub2 : ∀ p ∈ t.subscription_ids, p.1 ∈ t.watched_wallets)
    (hseen2 : ∀ p ∈ t.last_seen_txs, p.1 ∈ t.watched_wallets) :
    (lower w ∉ (WalletStalker.unwatch_wallet
        (WalletStalker.watch_wallet s w wo now).2 w uo).watched_wallets ∧
      alookup (lower w) (WalletStalker.unwatch_wallet
        (WalletStalker.watch_wallet s w wo now).2 w uo).subscription_ids = none ∧
      alookup (lower w) (WalletStalker.unwatch_wallet
        (WalletStalker.watch_wallet s w wo now).2 w uo).last_seen_txs = none) ∧
    (v ∉ (SolanaWalletStalker.unwatch_wallet
        (SolanaWalletStalker.watch_wallet t v wo2 now2).2 v).watched_wallets ∧
      alookup v (SolanaWalletStalker.unwatch_wallet
        (SolanaWalletStalker.watch_wallet t v wo2 now2).2 v).subscription_ids = none ∧
      alookup v (SolanaWalletStalker.unwatch_wallet
        (SolanaWalletStalker.watch_wallet t v wo2 now2).2 v).last_seen_txs = none) :=
  ⟨evm_unwatch_clears _ w uo (evm_watch_post s w wo now hsub hseen),
   sol_unwatch_clears _ v (sol_watch_post t v wo2 now2 hsub2 hseen2)⟩

/-- Witness for C1 at a concrete registry. -/
theorem c1_watch_unwatch_absent_witness :
    lower "0xAAA" ∉ (WalletStalker.unwatch_wallet
      (WalletStalker.watch_wallet
        { chain := "ethereum", watched_wallets := ["0xbbb"],
          subscription_ids := [("0xbbb", "s9")],
          last_seen_txs := [("0xbbb", ["t1"])],
          last_activity := [("0xbbb", 3)], has_callback := true, connected := true }
        "0xAAA" (SubOutcome.ok "s1") 10).2
      "0xAAA" SubOutcome.transportExn).watched_wallets :=
  (c1_watch_unwatch_absent
    { chain := "ethereum", watched_wallets := ["0xbbb"],
      subscription_ids := [("0xbbb", "s9")],
      last_seen_txs := [("0xbbb", ["t1"])],
      last_activity := [("0xbbb", 3)], has_callback := true, connected := true }
    "0xAAA" (SubOutcome.ok "s1") SubOutcome.transportExn 10
    (by decide) (by decide)
    initSol "V1" SubOutcome.errorReply 5 (by decide) (by decide)).1.1

/-- One hundred distinct transaction identifiers; `"x0"` is the first
(oldest) one inserted into the recent-event set. -/
def hundredIds : List String := (List.range 100).map (fun n => "x" ++ toString n)

/-- C2: the code comment says the recent-event set keeps the last 100
entries FIFO-style, but `set.pop()` removes an arbitrary element.  At the
failing input — wallet `0xaaa` whose recent-event set already holds 100
identifiers — handling the same `(wallet, tx)` pair twice delivers two
ActivityEvents when the arbitrary eviction falls on the just-inserted
identifier (eviction index 100), so the second occurrence is not dropped. -/
theorem c2_duplicate_delivery_at_capacity :
    (let s : EvmState :=
      { chain := "ethereum", watched_wallets := ["0xaaa"],
        subscription_ids := [("0xaaa", "s1")],
        last_seen_txs := [("0xaaa", hundredIds)],
        last_activity := [("0xaaa", 50)], has_callback := true, connected := true }
     let r1 := WalletStalker.handle_wallet_activity s "0xaaa" "t" (some "0xb") 60 100
     let r2 := WalletStalker.handle_wallet_activity r1.1 "0xaaa" "t" (some "0xb") 61 100
     (r1.2 ++ r2.2).length = 2 ∧ r1.2 ≠ [] ∧ r2.2 ≠ []) := by decide

/-- C3: at the failing input — a recent-event set holding the 100
identifiers `x0..x99` with `x0` the oldest — inserting a new identifier
`t` triggers the eviction, but `set.pop()` removes an arbitrary member:
with the choice falling on the newly inserted `t`, the oldest entry `x0`
survives and `t` is gone, so the set is not a bounded FIFO of the 100
most recently seen identifiers. -/
theorem c3_eviction_not_oldest :
    (let s : EvmState :=
      { chain := "ethereum", watched_wallets := ["0xaaa"],
        subscription_ids := [("0xaaa", "s1")],
        last_seen_txs := [("0xaaa", hundredIds)],
        last_activity := [("0xaaa", 50)], has_callback := true, connected := true }
     let r := WalletStalker.handle_wallet_activity s "0xaaa" "t" (some "0xb") 60 100
     let seen := (alookup "0xaaa" r.1.last_seen_txs).getD []
     "x0" ∈ seen ∧ "t" ∉ seen ∧ seen.length = 100) := by decide

/-- C4 counterexample: on a disconnected EVM adapter, `unwatch_wallet`
does not fail with a not-connected error — it proceeds, removing the
watched wallet from the registry, so it is not "rejected before touching
any state". -/
theorem c4_counterexample :
    (let s : EvmState :=
      { chain := "ethereum", watched_wallets := ["0xabc"],
        subscription_ids := [("0xabc", "s1")],
        last_seen_txs := [("0xabc", ["t1"])],
        last_activity := [("0xabc", 5)], has_callback := false, connected := false }
     let r := WalletStalker.unwatch_wallet s "0xabc" SubOutcome.transportExn
     s.connected = false ∧ r ≠ s ∧ "0xabc" ∉ r.watched_wallets) := by decide

/-- C4 amended: when the adapter is not connected, `watch_wallet` fails
with the not-connected RuntimeError on both adapters and leaves state
unchanged, but `unwatch_wallet` performs no connection check: it still
proceeds and removes a watched wallet from the registry. -/
theorem c4_watch_raises_unwatch_proceeds
    (s : EvmState) (t : SolState) (w v : String)
    (wo wo2 uo : SubOutcome) (now now2 : Nat)
    (hs : s.connected = false) (ht : t.connected = false)
    (hw : lower w ∈ s.watched_wallets) (hv : v ∈ t.watched_wallets) :
    WalletStalker.watch_wallet s w wo now = (.raised, s) ∧
    SolanaWalletStalker.watch_wallet t v wo2 now2 = (.raised, t) ∧
    lower w ∉ (WalletStalker.unwatch_wallet s w uo).watched_wallets ∧
    v ∉ (SolanaWalletStalker.unwatch_wallet t v).watched_wallets := by
  refine ⟨?_, ?_, ?_, ?_⟩
  · simp [WalletStalker.watch_wallet, hs]
  · simp [SolanaWalletStalker.watch_wallet, ht]
  · simp only [WalletStalker.unwatch_wallet]
    rw [if_pos hw]
    exact mem_filter_ne_self _ _
  · simp only [SolanaWalletStalker.unwatch_wallet]
    rw [if_pos hv]
    exact mem_filter_ne_self _ _

/-- Witness for the amended C4 at a concrete disconnected registry. -/
theorem c4_watch_raises_unwatch_proceeds_witness :
    WalletStalker.watch_wallet
      { chain := "ethereum", watched_wallets := ["0xabc"],
        subscription_ids := [("0xabc", "s1")],
        last_seen_txs := [("0xabc", ["t1"])],
        last_activity := [("0xabc", 5)], has_callback := false, connected := false }
      "0xABC" SubOutcome.errorReply 9 =
      (.raised,
        { chain := "ethereum", watched_wallets := ["0xabc"],
          subscription_ids := [("0xabc", "s1")],
          last_seen_txs := [("0xabc", ["t1"])],
          last_activity := [("0xabc", 5)], has_callback := false, connected := false }) :=
  (c4_watch_raises_unwatch_proceeds
    { chain := "ethereum", watched_wallets := ["0xabc"],
      subscription_ids := [("0xabc", "s1")],
      last_seen_txs := [("0xabc", ["t1"])],
      last_activity := [("0xabc", 5)], has_callback := false, connected := false }
    { initSol with watched_wallets := ["V1"] }
    "0xABC" "V1" SubOutcome.errorReply SubOutcome.transportExn SubOutcome.transportExn 9 4
    (by decide) (by decide) (by decide) (by decide)).1

/-- Effect of one `SolanaWalletStalker._handle_wallet_activity` call on a
fresh signature: one event is delivered for the wallet, the watched set
and callback registration are untouched, and the recent-event sets of
all other wallets are unchanged. -/
theorem sol_handle_fresh (s : SolState) (w sig : String) (now i : Nat)
    (hcb : s.has_callback = true)
    (hfresh : sig ∉ (alookup w s.last_seen_txs).getD []) :
    (SolanaWalletStalker.handle_wallet_activity s w sig now i).2 =
      [{ wallet := w, tx_hash := sig, block_number := none,
         timestamp := now, chain := "solana" }] ∧
    (SolanaWalletStalker.handle_wallet_activity s w sig now i).1.has_callback = true ∧
    (SolanaWalletStalker.handle_wallet_activity s w sig now i).1.watched_wallets =
      s.watched_wallets ∧
    ∀ w', w' ≠ w →
      alookup w' (SolanaWalletStalker.handle_wallet_activity s w sig now i).1.last_seen_txs =
        alookup w' s.last_seen_txs := by
  have hfire := debounceStep_fires ((alookup w s.last_seen_txs).getD []) sig i hfresh
  refine ⟨?_, ?_, ?_, ?_⟩
  · simp [SolanaWalletStalker.handle_wallet_activity, hfire, hcb]
  · simp [SolanaWalletStalker.handle_wallet_activity, hfire, hcb]
  · simp [SolanaWalletStalker.handle_wallet_activity, hfire]
  · intro w' hne
    simp [SolanaWalletStalker.handle_wallet_activity, hfire, alookup_aset_ne w' w _ hne]

/-- The dispatch loop of `SolanaWalletStalker._process_message` fires one
activity event per watched wallet, in registry order. -/
theorem sol_fold_dispatch (sig : String) (now i : Nat) :
    ∀ (ws : List String) (s : SolState) (acc : List ActivityEvent),
      s.has_callback = true → ws.Nodup →
      (∀ w ∈ ws, sig ∉ (alookup w s.last_seen_txs).getD []) →
      (ws.foldl (fun acc w =>
          let r := SolanaWalletStalker.handle_wallet_activity acc.1 w sig now i
          (r.1, acc.2 ++ r.2)) (s, acc)).2.map ActivityEvent.wallet =
        acc.map ActivityEvent.wallet ++ ws
  | [], s, acc, _, _, _ => by simp
  | w :: ws, s, acc, hcb, hnd, hfresh => by
    have hw := hfresh w (by simp)
    obtain ⟨hev, hcb', hww, hother⟩ := sol_handle_fresh s w sig now i hcb hw
    have hnd' : ws.Nodup := (List.nodup_cons.mp hnd).2
    have hnw : w ∉ ws := (List.nodup_cons.mp hnd).1
    have hfresh' : ∀ w' ∈ ws,
        sig ∉ (alookup w'
          (SolanaWalletStalker.handle_wallet_activity s w sig now i).1.last_seen_txs).getD [] := by
      intro w' hw'
      rw [hother w' (fun hh => hnw (hh ▸ hw'))]
      exact hfresh w' (by simp [hw'])
    have ih := sol_fold_dispatch sig now i ws
      (SolanaWalletStalker.handle_wallet_activity s w sig now i).1
      (acc ++ (SolanaWalletStalker.handle_wallet_activity s w sig now i).2)
      hcb' hnd' hfresh'
    simp only [List.foldl_cons]
    rw [ih, hev]
    simp

/-- C5 counterexample: with two wallets watched on the Solana adapter, a
single `logsNotification` produces a dispatch for *both* watched
wallets, not for exactly the one the mentions-filter subscription was
scoped to. -/
theorem c5_counterexample :
    (let t : SolState := { initSol with
        connected := true
        has_callback := true
        watched_wallets := ["W1", "W2"] }
     let r := SolanaWalletStalker.process_message t "logsNotification" (some "sig") 10 0
     r.2.map ActivityEvent.wallet = ["W1", "W2"] ∧ r.2.length ≠ 1) := by decide

/-- C5 amended: `_process_message` on a `logsNotification` attributes the
signature to *every* watched wallet — one event per watched wallet, in
registry order (so with exactly one watched wallet this degenerates to
direct attribution to it). -/
theorem c5_notification_dispatches_all_watched (t : SolState) (sig : String) (now i : Nat)
    (hcb : t.has_callback = true) (hnd : t.watched_wallets.Nodup)
    (hfresh : ∀ w ∈ t.watched_wallets, sig ∉ (alookup w t.last_seen_txs).getD []) :
    (SolanaWalletStalker.process_message t "logsNotification" (some sig) now i).2.map
      ActivityEvent.wallet = t.watched_wallets := by
  have h := sol_fold_dispatch sig now i t.watched_wallets t [] hcb hnd hfresh
  simpa [SolanaWalletStalker.process_message] using h

/-- Witness for the amended C5 at a two-wallet registry. -/
theorem c5_notification_dispatches_all_watched_witness :
    (SolanaWalletStalker.process_message
      { initSol with
        connected := true
        has_callback := true
        watched_wallets := ["W1", "W2"] }
      "logsNotification" (some "sig") 10 0).2.map ActivityEvent.wallet = ["W1", "W2"] :=
  c5_notification_dispatches_all_watched
    { initSol with
      connected := true
      has_callback := true
      watched_wallets := ["W1", "W2"] }
    "sig" 10 0 (by decide) (by decide) (by decide)

/-- C6 counterexample: the EVM adapter's already-watched branch returns
Python `None`; the Gateway tests truthiness of the result, so the second
watch request for `0xAAA` (already watched as `0xaaa`) is answered with
an `error` frame, not `watch_started` — even though the adapter state is
unchanged. -/
theorem c6_counterexample :
    (let s : EvmState :=
      { chain := "ethereum", watched_wallets := ["0xaaa"],
        subscription_ids := [("0xaaa", "s1")], last_seen_txs := [],
        last_activity := [("0xaaa", 0)], has_callback := true, connected := true }
     let r := WalletStalker.watch_wallet s "0xAAA" (SubOutcome.ok "s2") 7
     r.1 = WatchRet.retNone ∧ gateway_watch_reply r.1 = GatewayReply.error_frame ∧
       r.2 = s) := by decide

/-- C6 amended: a repeated watch is a state no-op on both adapters; the
Solana adapter returns `True` so the Gateway replies `watch_started`,
but the EVM adapter returns `None` (falsy), so the Gateway replies with
an `error` frame. -/
theorem c6_rewatch_noop_reply (s : EvmState) (t : SolState) (w v : String)
    (wo wo2 : SubOutcome) (now now2 : Nat)
    (hs : s.connected = true) (hw : lower w ∈ s.watched_wallets)
    (ht : t.connected = true) (hv : v ∈ t.watched_wallets) :
    WalletStalker.watch_wallet s w wo now = (.retNone, s) ∧
    gateway_watch_reply (WalletStalker.watch_wallet s w wo now).1 =
      GatewayReply.error_frame ∧
    SolanaWalletStalker.watch_wallet t v wo2 now2 = (.retTrue, t) ∧
    gateway_watch_reply (SolanaWalletStalker.watch_wallet t v wo2 now2).1 =
      GatewayReply.watch_started := by
  have h1 : WalletStalker.watch_wallet s w wo now = (.retNone, s) := by
    simp [WalletStalker.watch_wallet, hs, hw]
  have h2 : SolanaWalletStalker.watch_wallet t v wo2 now2 = (.retTrue, t) := by
    simp [SolanaWalletStalker.watch_wallet, ht, hv]
  exact ⟨h1, by rw [h1]; rfl, h2, by rw [h2]; rfl⟩

/-- Witness for the amended C6 at a concrete registry. -/
theorem c6_rewatch_noop_reply_witness :
    gateway_watch_reply (WalletStalker.watch_wallet
      { chain := "ethereum", watched_wallets := ["0xaaa"],
        subscription_ids := [("0xaaa", "s1")], last_seen_txs := [],
        last_activity := [("0xaaa", 0)], has_callback := true, connected := true }
      "0xAAA" (SubOutcome.ok "s2") 7).1 = GatewayReply.error_frame :=
  (c6_rewatch_noop_reply
    { chain := "ethereum", watched_wallets := ["0xaaa"],
      subscription_ids := [("0xaaa", "s1")], last_seen_txs := [],
      last_activity := [("0xaaa", 0)], has_callback := true, connected := true }
    { initSol with connected := true, watched_wallets := ["V1"] }
    "0xAAA" "V1" (SubOutcome.ok "s2") SubOutcome.errorReply 7 8
    (by decide) (by decide) (by decide) (by decide)).2.1

/-- C7 counterexample: after client A watches `W1` on the Solana adapter,
an immediate status request reports `W1` as `"active"` (the watch stamped
`last_activity` with the watch time, and less than 30s elapsed), not
`"idle"` as the scenario claims; the time-ago value and tx_count are as
claimed. -/
theorem c7_counterexample :
    (let r := SolanaWalletStalker.watch_wallet { initSol with connected := true } "W1"
        (SubOutcome.ok "s") 1000
     let st := get_watched_wallets_status r.2 1000
     st = [("W1", { state := "active", last_activity := "0s ago", tx_count := 0 })] ∧
       (alookup "W1" st).map WalletStatus.state ≠ some "idle") := by decide

/-- C7 amended: a freshly watched wallet queried within 30 seconds is
listed with state `"active"`, an immediate seconds-granularity time-ago
value, and tx_count 0. -/
theorem c7_status_just_watched_active (t : SolState) (w sid : String) (t0 d : Nat)
    (hc : t.connected = true) (hw : w ∉ t.watched_wallets)
    (hseen : alookup w t.last_seen_txs = none) (hd : d < 30) :
    alookup w (get_watched_wallets_status
        (SolanaWalletStalker.watch_wallet t w (SubOutcome.ok sid) t0).2 (t0 + d)) =
      some { state := "active", last_activity := toString d ++ "s ago", tx_count := 0 } := by
  have hwatch : (SolanaWalletStalker.watch_wallet t w (SubOutcome.ok sid) t0).2 =
      { t with
        watched_wallets := t.watched_wallets ++ [w]
        last_activity := aset w t0 t.last_activity } := by
    simp [SolanaWalletStalker.watch_wallet, hc, hw]
  rw [hwatch]
  unfold get_watched_wallets_status
  rw [alookup_map_key]
  rw [if_pos (by simp)]
  simp [statusEntry, alookup_aset_self, hseen, Nat.add_sub_cancel_left, hd]

/-- Witness for the amended C7: watching `W1` at time 1000 and asking for
status at the same instant yields the `"active"`/"0s ago"/0 row. -/
theorem c7_status_just_watched_active_witness :
    alookup "W1" (get_watched_wallets_status
        (SolanaWalletStalker.watch_wallet { initSol with connected := true } "W1"
          (SubOutcome.ok "s") 1000).2 (1000 + 0)) =
      some { state := "active", last_activity := toString 0 ++ "s ago", tx_count := 0 } :=
  c7_status_just_watched_active { initSol with connected := true } "W1" "s" 1000 0
    (by decide) (by decide) (by decide) (by decide)

theorem length_filter_send_split :
    ∀ l : List ClientChannel,
      (l.filter (fun c => c.send_ok)).length +
        (l.filter (fun c => !c.send_ok)).length = l.length
  | [] => rfl
  | c :: l => by
    have ih := length_filter_send_split l
    cases h : c.send_ok <;> simp [List.filter_cons, h] <;> omega

theorem contains_filter_not_send (channels : List ClientChannel) (c : ClientChannel)
    (hc : c ∈ channels) :
    (channels.filter (fun x => !x.send_ok)).contains c = !c.send_ok := by
  by_cases h : c.send_ok
  · simp [List.contains, List.elem_eq_mem, List.mem_filter, h]
  · simp [List.contains, List.elem_eq_mem, List.mem_filter, h, hc]

/-- The collect-then-prune broadcast keeps exactly the channels whose
send succeeded. -/
theorem on_wallet_activity_eq_filter (channels : List ClientChannel) :
    on_wallet_activity channels = channels.filter (fun c => c.send_ok) := by
  unfold on_wallet_activity
  refine List.filter_congr ?_
  intro c hc
  rw [contains_filter_not_send channels c hc]
  simp

/-- C8: broadcasting to `n` registered channels of which exactly one
fails to send leaves exactly `n − 1` channels registered — the failing
channel is pruned after the pass and every successful channel survives;
the broadcast function is total (no exception reaches the dispatcher). -/
theorem c8_broadcast_prunes_failed_channel (channels : List ClientChannel)
    (hone : (channels.filter (fun c => !c.send_ok)).length = 1) :
    (on_wallet_activity channels).length + 1 = channels.length ∧
    ∀ c ∈ channels, (c ∈ on_wallet_activity channels ↔ c.send_ok = true) := by
  constructor
  · rw [on_wallet_activity_eq_filter]
    have hsplit := length_filter_send_split channels
    omega
  · intro c hc
    rw [on_wallet_activity_eq_filter]
    simp [List.mem_filter, hc]

/-- Witness for C8 with three registered channels, the second of which
fails to send: two channels remain. -/
theorem c8_broadcast_prunes_failed_channel_witness :
    (on_wallet_activity
        ([⟨1, true⟩, ⟨2, false⟩, ⟨3, true⟩] : List ClientChannel)).length + 1 =
      ([⟨1, true⟩, ⟨2, false⟩, ⟨3, true⟩] : List ClientChannel).length :=
  (c8_broadcast_prunes_failed_channel
    ([⟨1, true⟩, ⟨2, false⟩, ⟨3, true⟩] : List ClientChannel) (by decide)).1

/-- C9: for every watched wallet, `unwatch_wallet` removes it from
`watched_wallets`, `subscription_ids` and `last_seen_txs`, leaves the
`last_activity` map entirely in place (the removed wallet's entry
included), changes no other field, and leaves every other wallet's
entries unchanged — on both adapters. -/
theorem c9_unwatch_modifies_only_three_maps
    (s : EvmState) (w : String) (uo : SubOutcome) (hw : lower w ∈ s.watched_wallets)
    (t : SolState) (v : String) (hv : v ∈ t.watched_wallets) :
    (lower w ∉ (WalletStalker.unwatch_wallet s w uo).watched_wallets ∧
     alookup (lower w) (WalletStalker.unwatch_wallet s w uo).subscription_ids = none ∧
     alookup (lower w) (WalletStalker.unwatch_wallet s w uo).last_seen_txs = none ∧
     (WalletStalker.unwatch_wallet s w uo).last_activity = s.last_activity ∧
     (WalletStalker.unwatch_wallet s w uo).chain = s.chain ∧
     (WalletStalker.unwatch_wallet s w uo).has_callback = s.has_callback ∧
     (WalletStalker.unwatch_wallet s w uo).connected = s.connected ∧
     ∀ k, k ≠ lower w →
       ((k ∈ (WalletStalker.unwatch_wallet s w uo).watched_wallets ↔
          k ∈ s.watched_wallets) ∧
        alookup k (WalletStalker.unwatch_wallet s w uo).subscription_ids =
          alookup k s.subscription_ids ∧
        alookup k (WalletStalker.unwatch_wallet s w uo).last_seen_txs =
          alookup k s.last_seen_txs)) ∧
    (v ∉ (SolanaWalletStalker.unwatch_wallet t v).watched_wallets ∧
     alookup v (SolanaWalletStalker.unwatch_wallet t v).subscription_ids = none ∧
     alookup v (SolanaWalletStalker.unwatch_wallet t v).last_seen_txs = none ∧
     (SolanaWalletStalker.unwatch_wallet t v).last_activity = t.last_activity ∧
     (SolanaWalletStalker.unwatch_wallet t v).has_callback = t.has_callback ∧
     (SolanaWalletStalker.unwatch_wallet t v).connected = t.connected ∧
     ∀ k, k ≠ v →
       ((k ∈ (SolanaWalletStalker.unwatch_wallet t v).watched_wallets ↔
          k ∈ t.watched_wallets) ∧
        alookup k (SolanaWalletStalker.unwatch_wallet t v).subscription_ids =
          alookup k t.subscription_ids ∧
        alookup k (SolanaWalletStalker.unwatch_wallet t v).last_seen_txs =
          alookup k t.last_seen_txs)) := by
  have hs : WalletStalker.unwatch_wallet s w uo =
      { s with
        watched_wallets := s.watched_wallets.filter (fun x => x != lower w)
        subscription_ids := aerase (lower w) s.subscription_ids
        last_seen_txs := aerase (lower w) s.last_seen_txs } := by
    simp only [WalletStalker.unwatch_wallet]
    rw [if_pos hw]
  have ht : SolanaWalletStalker.unwatch_wallet t v =
      { t with
        watched_wallets := t.watched_wallets.filter (fun x => x != v)
        subscription_ids := aerase v t.subscription_ids
        last_seen_txs := aerase v t.last_seen_txs } := by
    simp only [SolanaWalletStalker.unwatch_wallet]
    rw [if_pos hv]
  rw [hs, ht]
  refine ⟨⟨mem_filter_ne_self _ _, alookup_aerase_self _ _, alookup_aerase_self _ _,
      rfl, rfl, rfl, rfl, ?_⟩,
    ⟨mem_filter_ne_self _ _, alookup_aerase_self _ _, alookup_aerase_self _ _,
      rfl, rfl, rfl, ?_⟩⟩
  · intro k hk
    exact ⟨mem_filter_ne_iff k (lower w) hk _, alookup_aerase_ne k (lower w) hk _,
      alookup_aerase_ne k (lower w) hk _⟩
  · intro k hk
    exact ⟨mem_filter_ne_iff k v hk _, alookup_aerase_ne k v hk _,
      alookup_aerase_ne k v hk _⟩

/-- Witness for C9 on concrete two-wallet registries. -/
theorem c9_unwatch_modifies_only_three_maps_witness :
    (WalletStalker.unwatch_wallet
      { chain := "ethereum", watched_wallets := ["0xaaa", "0xbbb"],
        subscription_ids := [("0xaaa", "s1"), ("0xbbb", "s2")],
        last_seen_txs := [("0xaaa", ["t1"]), ("0xbbb", ["t2"])],
        last_activity := [("0xaaa", 3), ("0xbbb", 4)],
        has_callback := true, connected := true }
      "0xAAA" SubOutcome.errorReply).last_activity = [("0xaaa", 3), ("0xbbb", 4)] :=
  ((c9_unwatch_modifies_only_three_maps
    { chain := "ethereum", watched_wallets := ["0xaaa", "0xbbb"],
      subscription_ids := [("0xaaa", "s1"), ("0xbbb", "s2")],
      last_seen_txs := [("0xaaa", ["t1"]), ("0xbbb", ["t2"])],
      last_activity := [("0xaaa", 3), ("0xbbb", 4)],
      has_callback := true, connected := true }
    "0xAAA" SubOutcome.errorReply (by decide)
    { initSol with watched_wallets := ["V1"] } "V1" (by decide)).1).2.2.2.1

/-- C10: `get_stalker` for an EVM chain stores the adapter in the
singleton table only after `connect()` succeeds — a failed connect
propagates the exception and leaves the table unchanged, and a later
call attempts a fresh connect — whereas for `"solana"` the singleton is
assigned before connecting, so after a failed connect the
never-connected instance stays cached and every later
`get_stalker("solana")` returns it without invoking `connect()` again. -/
theorem c10_get_stalker_connect_ordering (d : Directory) (chain : String)
    (hev : lower chain ≠ "solana")
    (hnone : alookup chain d.stalker_instances = none)
    (hsol : d.solana_stalker = none) :
    get_stalker d chain false = (.connectRaised, d, true) ∧
    get_stalker d chain true =
      (.evm { initEvm chain with connected := true },
       { d with stalker_instances := aset chain { initEvm chain with connected := true } d.stalker_instances },
       true) ∧
    get_stalker d "solana" false =
      (.connectRaised, { d with solana_stalker := some initSol }, true) ∧
    (∀ ok, get_stalker { d with solana_stalker := some initSol } "solana" ok =
      (.sol initSol, { d with solana_stalker := some initSol }, false)) ∧
    initSol.connected = false := by
  have hsolana : lower "solana" = "solana" := by decide
  refine ⟨?_, ?_, ?_, ?_, rfl⟩
  · simp [get_stalker, hev, hnone]
  · simp [get_stalker, hev, hnone]
  · simp [get_stalker, hsolana, hsol]
  · intro ok
    simp [get_stalker, hsolana]

/-- Witness for C10 from an empty singleton directory and the
`"ethereum"` chain. -/
theorem c10_get_stalker_connect_ordering_witness :
    get_stalker { stalker_instances := [], solana_stalker := none } "ethereum" false =
      (.connectRaised, { stalker_instances := [], solana_stalker := none }, true) :=
  (c10_get_stalker_connect_ordering
    { stalker_instances := [], solana_stalker := none } "ethereum"
    (by decide) (by decide) (by decide)).1

end Gator
